import Mathlib

/-!
Shallow embedding of the research_v3 pipeline of this repository
(flask_app/research_v3: RagSys.py, Spider.py, ArtGen.py), with theorems
about its retrieval validation, retrieval ordering, source collection
caps, reliability scoring and article generation.

Conventions used throughout:
* Python floats are modelled as exact rationals (ℚ).
* Python substring tests (`needle in hay`) are `strContains hay needle`.
* External effects (sentence-transformer embeddings, FAISS distance
  computation, HTTP fetches, the LLM, wall-clock dates) are passed in as
  explicit arguments.
-/

/-- The Python `needle in hay` substring test on strings. -/
def strContains (hay needle : String) : Bool :=
  decide (needle.data <:+: hay.data)

/-! ## RagSys.py: `RAGSystem` -/

/-- One element of the list built by `RAGSystem.retrieve`: the dict
with keys `text`, `metadata`, `distance`, `similarity`, `is_confident`.
The metadata dict is abstracted to its source name string. -/
structure RetrievedDoc where
  text : String
  metadata : String
  distance : ℚ
  similarity : ℚ
  is_confident : Bool
deriving Repr, DecidableEq

/-- The state of a `RAGSystem` instance relevant to retrieval and
validation: the accuracy-control fields set in `RAGSystem.__init__`
(`confidence_threshold`, `strict_mode`, `max_context_length`,
`min_retrieved_docs = 2`) together with the indexed corpus
(`self.texts`, `self.metadata`). -/
structure RAGSystem where
  confidence_threshold : ℚ
  strict_mode : Bool
  max_context_length : ℕ := 2000
  min_retrieved_docs : ℕ := 2
  texts : List String
  metadata : List String

/-- FAISS `IndexFlatL2.search`: given the squared-L2 distances from the
query embedding to each stored vector (in index order), return the
`k` nearest `(index, distance)` pairs sorted by ascending distance.
(When fewer than `k` vectors are stored, FAISS pads its fixed-shape
output with sentinel entries; the model returns just the stored ones.) -/
def faissSearch (dists : List ℚ) (k : ℕ) : List (ℕ × ℚ) :=
  ((dists.enum).mergeSort (fun a b => decide (a.2 ≤ b.2))).take k

/-- Model of `RAGSystem.retrieve`: top-`k` search, converting each distance to
`similarity = 1/(1+distance)` and flagging
`is_confident = similarity >= confidence_threshold`.  `dists` abstracts
`self.index.search(self.embedding_model.encode([query]), k)`. -/
def RAGSystem.retrieve (sys : RAGSystem) (dists : List ℚ) (k : ℕ) :
    List RetrievedDoc :=
  (faissSearch dists k).map (fun p =>
    let similarity : ℚ := 1 / (1 + p.2)
    { text := sys.texts.getD p.1 ("")
      metadata := sys.metadata.getD p.1 ("")
      distance := p.2
      similarity := similarity
      is_confident := decide (similarity ≥ sys.confidence_threshold) })

/-- Mean of the `similarity` fields (the `np.mean` used by validation and `query`). -/
def meanSimilarity (docs : List RetrievedDoc) : ℚ :=
  (docs.map (·.similarity)).sum / docs.length

/-- Model of `RAGSystem._validate_retrieval`: `(is_valid, reason)`.  Fails when no
documents, when fewer than `min_retrieved_docs` documents are confident,
or when the average similarity is below `confidence_threshold`.
(The Python `f"...{avg:.2f}"` number formatting is abstracted to `toString`.) -/
def RAGSystem.validate_retrieval (sys : RAGSystem) (docs : List RetrievedDoc) :
    Bool × String :=
  if docs.isEmpty then
    (false, "No relevant documents found")
  else
    let confident := docs.filter (·.is_confident)
    if confident.length < sys.min_retrieved_docs then
      (false, "Insufficient confident sources (found " ++
        toString confident.length ++ ", need " ++
        toString sys.min_retrieved_docs ++ ")")
    else
      let avg := meanSimilarity docs
      if avg < sys.confidence_threshold then
        (false, "Low average relevance score (" ++ toString avg ++ ")")
      else
        (true, "Valid")

/-- A system with the documented defaults `confidence_threshold = 0.6`,
`min_retrieved_docs = 2` and strict mode on, over an arbitrary corpus. -/
def defaultSys : RAGSystem :=
  { confidence_threshold := 0.6
    strict_mode := true
    texts := []
    metadata := [] }

/-- A retrieved document carrying a given similarity, with its
`is_confident` flag computed exactly as `RAGSystem.retrieve` computes it
from the default threshold `0.6`. -/
def docOfSim (s : ℚ) : RetrievedDoc :=
  { text := ""
    metadata := ""
    distance := 0
    similarity := s
    is_confident := decide (s ≥ (0.6 : ℚ)) }

/-- C1: `_validate_retrieval` fails exactly when the result list is empty,
or fewer than `min_retrieved_docs` results are confident, or the mean
similarity is below the threshold; and with threshold `0.6` and minimum
`2`, similarities `[0.9, 0.3]` fail validation while `[0.7, 0.8]` pass. -/
theorem validate_retrieval_spec :
    (∀ (sys : RAGSystem) (docs : List RetrievedDoc),
      (sys.validate_retrieval docs).1 = false ↔
        (docs = [] ∨
         (docs.filter (·.is_confident)).length < sys.min_retrieved_docs ∨
         meanSimilarity docs < sys.confidence_threshold)) ∧
    (defaultSys.validate_retrieval [docOfSim 0.9, docOfSim 0.3]).1 = false ∧
    (defaultSys.validate_retrieval [docOfSim 0.7, docOfSim 0.8]).1 = true := by
  refine ⟨fun sys docs => ?_, ?_, ?_⟩
  · by_cases h : docs = []
    · simp [RAGSystem.validate_retrieval, h]
    · by_cases hc : (docs.filter (·.is_confident)).length < sys.min_retrieved_docs
      · simp [RAGSystem.validate_retrieval, List.isEmpty_iff, h, hc]
      · by_cases ha : meanSimilarity docs < sys.confidence_threshold
        · simp [RAGSystem.validate_retrieval, List.isEmpty_iff, h, hc, ha]
        · simp [RAGSystem.validate_retrieval, List.isEmpty_iff, h, hc, ha]
  · have h9 : decide ((0.9 : ℚ) ≥ 0.6) = true := by norm_num
    have h3 : decide ((0.3 : ℚ) ≥ 0.6) = false := by norm_num
    simp [RAGSystem.validate_retrieval, docOfSim, defaultSys, h9, h3,
      meanSimilarity]
  · have h7 : decide ((0.7 : ℚ) ≥ 0.6) = true := by norm_num
    have h8 : decide ((0.8 : ℚ) ≥ 0.6) = true := by norm_num
    simp [RAGSystem.validate_retrieval, docOfSim, defaultSys, h7, h8,
      meanSimilarity]
    norm_num

/-! ## RagSys.py: retrieval ordering (C3) and similarity conversion (C4) -/

lemma faissSearch_pairwise (dists : List ℚ) (k : ℕ) :
    List.Pairwise (fun p q : ℕ × ℚ => p.2 ≤ q.2) (faissSearch dists k) := by
  have h := @List.sorted_mergeSort (ℕ × ℚ) (fun a b => decide (a.2 ≤ b.2))
    (fun a b c hab hbc => by
      simp only [decide_eq_true_eq] at *; exact le_trans hab hbc)
    (fun a b => by
      simp only [Bool.or_eq_true, decide_eq_true_eq]; exact le_total a.2 b.2)
    (dists.enum)
  have h' : List.Pairwise (fun p q : ℕ × ℚ => p.2 ≤ q.2)
      ((dists.enum).mergeSort (fun a b => decide (a.2 ≤ b.2))) :=
    h.imp (fun hab => by simpa using hab)
  exact h'.sublist (List.take_sublist k _)

lemma faissSearch_length (dists : List ℚ) (k : ℕ) :
    (faissSearch dists k).length ≤ k := by
  simp [faissSearch]

lemma mem_faissSearch {dists : List ℚ} {k : ℕ} {p : ℕ × ℚ}
    (h : p ∈ faissSearch dists k) : p.2 ∈ dists := by
  have h1 : p ∈ (dists.enum).mergeSort (fun a b => decide (a.2 ≤ b.2)) :=
    List.mem_of_mem_take h
  have h2 : p ∈ dists.enum := (List.mergeSort_perm _ _).subset h1
  exact List.snd_mem_of_mem_enum h2

/-- C3: `retrieve(query, k)` returns at most `k` results, sorted by
ascending distance; when all distances are non-negative this ordering is
equivalently descending similarity. -/
theorem retrieve_le_k_sorted :
    ∀ (sys : RAGSystem) (dists : List ℚ) (k : ℕ),
      (sys.retrieve dists k).length ≤ k ∧
      List.Pairwise (fun a b : RetrievedDoc => a.distance ≤ b.distance)
        (sys.retrieve dists k) ∧
      ((∀ d ∈ dists, (0:ℚ) ≤ d) →
        List.Pairwise (fun a b : RetrievedDoc => b.similarity ≤ a.similarity)
          (sys.retrieve dists k)) := by
  intro sys dists k
  refine ⟨?_, ?_, ?_⟩
  · simpa [RAGSystem.retrieve] using faissSearch_length dists k
  · rw [RAGSystem.retrieve, List.pairwise_map]
    exact (faissSearch_pairwise dists k).imp (fun h => h)
  · intro hpos
    rw [RAGSystem.retrieve, List.pairwise_map]
    refine ((faissSearch_pairwise dists k).imp_of_mem ?_)
    intro p q hp hq hle
    have hp0 : (0:ℚ) ≤ p.2 := hpos _ (mem_faissSearch hp)
    simpa using one_div_le_one_div_of_le (by linarith) (by linarith : 1 + p.2 ≤ 1 + q.2)

/-- Witness for C3 at `dists = [1, 0]`, `k = 2`: the non-negativity
hypothesis holds and the retrieved list is sorted by descending similarity. -/
theorem retrieve_le_k_sorted_witness :
    (∀ d ∈ ([1, 0] : List ℚ), (0:ℚ) ≤ d) ∧
    List.Pairwise (fun a b : RetrievedDoc => b.similarity ≤ a.similarity)
      (defaultSys.retrieve [1, 0] 2) := by
  have hd : ∀ d ∈ ([1, 0] : List ℚ), (0:ℚ) ≤ d := by
    intro d hd
    rcases List.mem_cons.mp hd with rfl | hd
    · norm_num
    · rcases List.mem_cons.mp hd with rfl | hd
      · norm_num
      · cases hd
  exact ⟨hd, (retrieve_le_k_sorted defaultSys [1, 0] 2).2.2 hd⟩

/-- C4: every result of `retrieve` has `similarity = 1/(1+distance)`, this
value lies in `(0, 1]` when the distance is non-negative, and
`is_confident` holds iff the similarity is at least the threshold. -/
theorem retrieve_similarity_spec :
    ∀ (sys : RAGSystem) (dists : List ℚ) (k : ℕ) (r : RetrievedDoc),
      r ∈ sys.retrieve dists k →
      r.similarity = 1 / (1 + r.distance) ∧
      (0 ≤ r.distance → 0 < r.similarity ∧ r.similarity ≤ 1) ∧
      (r.is_confident = true ↔ sys.confidence_threshold ≤ r.similarity) := by
  intro sys dists k r hr
  rw [RAGSystem.retrieve] at hr
  obtain ⟨p, _, rfl⟩ := List.mem_map.mp hr
  refine ⟨rfl, fun h0 => ⟨?_, ?_⟩, by simp⟩
  · have : (0:ℚ) < 1 + p.2 := by simpa using by linarith
    positivity
  · rw [div_le_one (by linarith)]; linarith

/-- The document produced by `retrieve` over the one-vector corpus at
distance `0`: similarity `1`, confidently above the `0.6` threshold. -/
def docAtZero : RetrievedDoc :=
  { text := ""
    metadata := ""
    distance := 0
    similarity := 1
    is_confident := true }

/-- Witness for C4 at the concrete retrieval `defaultSys.retrieve [0] 1`. -/
theorem retrieve_similarity_spec_witness :
    docAtZero ∈ defaultSys.retrieve [0] 1 ∧
    (docAtZero.similarity = 1 / (1 + docAtZero.distance) ∧
     (0 ≤ docAtZero.distance → 0 < docAtZero.similarity ∧ docAtZero.similarity ≤ 1) ∧
     (docAtZero.is_confident = true ↔
       defaultSys.confidence_threshold ≤ docAtZero.similarity)) := by
  have hmem : docAtZero ∈ defaultSys.retrieve [0] 1 := by
    have hc : decide ((1:ℚ)/(1+0) ≥ (0.6:ℚ)) = true := by norm_num
    simp [RAGSystem.retrieve, faissSearch, List.enum, defaultSys, docAtZero, hc]
    norm_num
  exact ⟨hmem, retrieve_similarity_spec defaultSys [0] 1 docAtZero hmem⟩

/-! ## RagSys.py: the `query` pipeline (C2) -/

/-- The dict returned by `RAGSystem.query`.  Keys that only one of the two
return statements sets (`avg_similarity`, `validation_passed`,
`validation_failed`) are `Option`s, `none` meaning the key is absent. -/
structure QueryResult where
  question : String
  answer : String
  sources : List String
  retrieved_docs : List RetrievedDoc
  context : String
  confidence : String
  avg_similarity : Option ℚ
  validation_passed : Option Bool
  validation_failed : Option Bool

/-- The chunks accumulated by the loop in `RAGSystem.generate_context`:
numbering from `i`, stopping as soon as a chunk would push the total
length past `max_length`.  (the `source` looked up in the metadata dict is the abstracted
metadata string; the two-decimal formatting of the similarity is
abstracted to `toString`.) -/
def contextParts (maxLen : ℕ) : ℕ → ℕ → List RetrievedDoc → List String
  | _, _, [] => []
  | i, cur, doc :: rest =>
    let chunk := "[Source " ++ toString i ++ ": " ++ doc.metadata ++
      " (Relevance: " ++ toString doc.similarity ++ ")]\n" ++ doc.text ++ "\n\n"
    if maxLen < cur + chunk.length then []
    else chunk :: contextParts maxLen (i + 1) (cur + chunk.length) rest

/-- Model of `RAGSystem.generate_context`: sort by similarity (highest first) and
join the chunks that fit within `max_context_length`. -/
def RAGSystem.generate_context (sys : RAGSystem) (docs : List RetrievedDoc) :
    String :=
  String.join (contextParts sys.max_context_length 1 0
    (docs.mergeSort (fun a b => decide (b.similarity ≤ a.similarity))))

/-- Model of `RAGSystem._create_strict_prompt`. -/
def createStrictPrompt (question context : String) : String :=
  "[INST] You are a factual assistant answering questions about native South African plants.\n\nCRITICAL RULES:\n- ONLY use information explicitly stated in the context below\n- If information is not in the context, say \"I don\x27t have information about this\"\n- Do not infer, extrapolate, or use general knowledge\n- Do not make up statistics or specific details\n- If the context is unclear or contradictory, acknowledge this\n\nContext:\n" ++
    context ++ "\n\nQuestion: " ++ question ++
    "\n\nProvide a clear, concise answer based ONLY on the context provided. If the context doesn\x27t contain the answer, state that explicitly. [/INST]\n\nAnswer:"

/-- Model of `RAGSystem.query`: retrieve, validate, and either return the strict-mode
refusal dict or generate an answer.  `gen` abstracts
`self._generate_answer` applied to the built prompt (the
`if self.generator is None` guard is modelled by `gen` being supplied),
and `dists` abstracts the embedding/FAISS distances for `question`.  The
returned Boolean records whether `_generate_answer` was invoked. -/
def RAGSystem.query (sys : RAGSystem) (gen : String → String) (dists : List ℚ)
    (question : String) (k : ℕ) : QueryResult × Bool :=
  let retrieved := sys.retrieve dists k
  let v := sys.validate_retrieval retrieved
  if v.1 = false ∧ sys.strict_mode = true then
    ({ question := question
       answer := "I cannot answer this question reliably. " ++ v.2 ++
         ". Please provide more specific context or documentation."
       sources := []
       retrieved_docs := retrieved
       context := ""
       confidence := "low"
       avg_similarity := none
       validation_passed := none
       validation_failed := some true }, false)
  else
    let context := sys.generate_context retrieved
    let prompt := createStrictPrompt question context
    let answer := gen prompt
    let avg := meanSimilarity retrieved
    ({ question := question
       answer := answer
       sources := retrieved.map (·.metadata)
       retrieved_docs := retrieved
       context := context
       confidence := if avg ≥ sys.confidence_threshold then "high" else "low"
       avg_similarity := some avg
       validation_passed := some v.1
       validation_failed := none }, true)

/-- C2 counterexample: on a failing retrieval in strict mode the returned
dict does not carry `validation_passed = false` — that key is absent
(the refusal dict sets `validation_failed = True` instead). -/
theorem query_validation_passed_counterexample :
    (defaultSys.validate_retrieval (defaultSys.retrieve [] 0)).1 = false ∧
    defaultSys.strict_mode = true ∧
    (defaultSys.query (fun _ => "generated") [] "q" 0).1.validation_passed ≠
      some false := by
  have hret : defaultSys.retrieve [] 0 = [] := by
    simp [RAGSystem.retrieve, faissSearch]
  have hfail : (defaultSys.validate_retrieval (defaultSys.retrieve [] 0)).1 = false := by
    simp [hret, RAGSystem.validate_retrieval]
  refine ⟨hfail, rfl, ?_⟩
  simp [RAGSystem.query, hfail, show defaultSys.strict_mode = true from rfl]

/-- C2 (amended): whenever validation of the retrieved results fails and
strict mode is on, `query` returns a dict whose `validation_failed` field
is `True` (no `validation_passed` key is set), whose answer is the
templated refusal built from the validation reason, and the
answer-generation model is never invoked. -/
theorem query_strict_refusal (sys : RAGSystem) (gen : String → String)
    (dists : List ℚ) (question : String) (k : ℕ)
    (hstrict : sys.strict_mode = true)
    (hfail : (sys.validate_retrieval (sys.retrieve dists k)).1 = false) :
    (sys.query gen dists question k).1.validation_failed = some true ∧
    (sys.query gen dists question k).1.validation_passed = none ∧
    (sys.query gen dists question k).1.answer =
      "I cannot answer this question reliably. " ++
        (sys.validate_retrieval (sys.retrieve dists k)).2 ++
        ". Please provide more specific context or documentation." ∧
    (sys.query gen dists question k).2 = false := by
  simp [RAGSystem.query, hstrict, hfail]

/-- Witness for C2 (amended) at the empty retrieval over `defaultSys`. -/
theorem query_strict_refusal_witness :
    defaultSys.strict_mode = true ∧
    (defaultSys.validate_retrieval (defaultSys.retrieve [] 0)).1 = false ∧
    ((defaultSys.query (fun _ => "generated") [] "q" 0).1.validation_failed = some true ∧
     (defaultSys.query (fun _ => "generated") [] "q" 0).1.validation_passed = none ∧
     (defaultSys.query (fun _ => "generated") [] "q" 0).1.answer =
       "I cannot answer this question reliably. " ++
         (defaultSys.validate_retrieval (defaultSys.retrieve [] 0)).2 ++
         ". Please provide more specific context or documentation." ∧
     (defaultSys.query (fun _ => "generated") [] "q" 0).2 = false) := by
  have hret : defaultSys.retrieve [] 0 = [] := by
    simp [RAGSystem.retrieve, faissSearch]
  have hfail : (defaultSys.validate_retrieval (defaultSys.retrieve [] 0)).1 = false := by
    simp [hret, RAGSystem.validate_retrieval]
  exact ⟨rfl, hfail,
    query_strict_refusal defaultSys (fun _ => "generated") [] "q" 0 rfl hfail⟩

/-! ## Spider.py: `EnhancedPlantSpider` -/

/-- The spider state relevant to the collection loop: the global source
cap set in `EnhancedPlantSpider.__init__` as `max(20, max_sources)`. -/
structure EnhancedPlantSpider where
  max_sources : ℕ

/-- Model of `EnhancedPlantSpider.__init__`: the configured `max_sources` is raised
to at least 20. -/
def spiderInit (max_sources : ℕ) : EnhancedPlantSpider :=
  { max_sources := max 20 max_sources }

/-- C9: the effective global source cap of the spider is `max(20, max_sources)`,
so it is never below 20. -/
theorem spider_max_sources_floor :
    ∀ m : ℕ, (spiderInit m).max_sources = max 20 m ∧
      20 ≤ (spiderInit m).max_sources :=
  fun m => ⟨rfl, le_max_left 20 m⟩

/-- The `unsupported_extensions` list of `is_supported_document`. -/
def unsupportedExtensions : List String :=
  [".doc", ".docx", ".xls", ".xlsx", ".ppt", ".pptx",
   ".zip", ".rar", ".tar", ".gz",
   ".jpg", ".jpeg", ".png", ".gif", ".bmp",
   ".mp4", ".avi", ".mov", ".mp3", ".wav"]

/-- Model of `EnhancedPlantSpider.is_supported_document`:
`(is_supported, document_type)`. -/
def is_supported_document (url : String) : Bool × String :=
  let url_lower := url.toLower
  if url_lower.endsWith (".pdf") || strContains url_lower ("pdf") then
    (true, "pdf")
  else if url_lower.endsWith (".txt") then
    (true, "text")
  else if unsupportedExtensions.any (fun ext => url_lower.endsWith ext) then
    (false, "unsupported")
  else
    (true, "html")

/-- C10: any URL whose lowercase form contains the substring `"pdf"`
anywhere is classified as a supported `pdf` document, before the
unsupported-extension check is ever reached. -/
theorem is_supported_document_pdf_substring :
    ∀ url : String, strContains url.toLower ("pdf") = true →
      is_supported_document url = (true, "pdf") := by
  intro url h
  simp [is_supported_document, h]

/-- Witness for C10: an HTML page whose path merely contains `"pdf"` is
dispatched to the PDF extractor. -/
theorem is_supported_document_pdf_substring_witness :
    strContains ("https://example.com/pdf-guide.html").toLower ("pdf") = true ∧
    is_supported_document ("https://example.com/pdf-guide.html") = (true, "pdf") := by
  have h : strContains ("https://example.com/pdf-guide.html").toLower ("pdf") = true := by
    rw [String.toLower, String.map_eq]
    decide
  exact ⟨h, is_supported_document_pdf_substring _ h⟩

/-- Model of `EnhancedPlantSpider._get_reliability_level`. -/
def get_reliability_level (score : ℚ) : String :=
  if score ≥ 0.95 then "very_high"
  else if score ≥ 0.85 then "high"
  else if score ≥ 0.75 then "medium"
  else "low"

/-- The order `low < medium < high < very_high` on reliability levels. -/
def levelRank : String → ℕ
  | "very_high" => 3
  | "high" => 2
  | "medium" => 1
  | _ => 0

/-- C6: `_get_reliability_level` is monotone — raising the score never
lowers the level in the order `low < medium < high < very_high`. -/
theorem reliability_level_monotone :
    ∀ s1 s2 : ℚ, s1 ≤ s2 →
      levelRank (get_reliability_level s1) ≤
        levelRank (get_reliability_level s2) := by
  intro s1 s2 h
  unfold get_reliability_level
  split_ifs <;> simp [levelRank] <;> linarith

/-- Witness for C6 at scores `0.5 ≤ 0.9`. -/
theorem reliability_level_monotone_witness :
    (0.5 : ℚ) ≤ 0.9 ∧
    levelRank (get_reliability_level 0.5) ≤
      levelRank (get_reliability_level 0.9) := by
  have h : (0.5 : ℚ) ≤ 0.9 := by norm_num
  exact ⟨h, reliability_level_monotone 0.5 0.9 h⟩

/-- The `self.domain_reliability` table from `EnhancedPlantSpider.__init__`,
in insertion (iteration) order. -/
def domain_reliability : List (String × ℚ) :=
  [("up.ac.za", 0.98), ("uct.ac.za", 0.98), ("wits.ac.za", 0.98),
   ("sun.ac.za", 0.98), ("ru.ac.za", 0.97), ("ukzn.ac.za", 0.97),
   ("ufs.ac.za", 0.97), ("unisa.ac.za", 0.96), ("nwu.ac.za", 0.96),
   ("sanbi.org", 0.98), ("sanbi.org.za", 0.98), ("plantzafrica.com", 0.97),
   ("ispotnature.org", 0.95), ("biodiversityadvisor.sanbi.org", 0.97),
   ("redlist.sanbi.org", 0.97), ("pza.sanbi.org", 0.97),
   ("en.wikipedia.org", 0.93), ("kew.org", 0.95),
   ("powo.science.kew.org", 0.95), ("missouribotanicalgarden.org", 0.88),
   ("britannica.com", 0.87), ("rhs.org.uk", 0.86),
   ("extension.wisc.edu", 0.80), ("ces.ncsu.edu", 0.80),
   ("extension.umn.edu", 0.80), ("thespruce.com", 0.70),
   ("plants.usda.gov", 0.85), ("plantnet.rbgsyd.nsw.gov.au", 0.82)]

/-- The `for known_domain, score in self.domain_reliability.items(): if
known_domain in domain: base_score = score; break` loop of
`_calculate_reliability`, with default `0.5`. -/
def reliabilityBase (domain : String) : ℚ :=
  match domain_reliability.find? (fun p => strContains domain p.1) with
  | some p => p.2
  | none => 0.5

/-- The taxonomic-vocabulary markers checked by `_calculate_reliability`. -/
def taxonomicMarkers : List String :=
  ["scientific name", "botanical", "taxonomy"]

/-- Model of `EnhancedPlantSpider._calculate_reliability`: table lookup, `+0.05`
for a taxonomic-vocabulary marker, `+0.03` for content longer than 1000
characters, capped at `1.0`. -/
def calculate_reliability (domain content : String) : ℚ :=
  let base := reliabilityBase domain
  let base :=
    if taxonomicMarkers.any (fun t => strContains content.toLower t) then
      base + 0.05
    else base
  let base := if 1000 < content.length then base + 0.03 else base
  min 1 base

lemma domain_reliability_nonneg : ∀ p ∈ domain_reliability, (0:ℚ) ≤ p.2 := by
  intro p hp
  fin_cases hp <;> norm_num

lemma reliabilityBase_nonneg (domain : String) : 0 ≤ reliabilityBase domain := by
  rcases hf : domain_reliability.find? (fun p => strContains domain p.1) with _ | p
  · rw [reliabilityBase, hf]
    norm_num
  · rw [reliabilityBase, hf]
    exact domain_reliability_nonneg p (List.mem_of_find?_eq_some hf)

/-- C7: the reliability score equals the table entry of the first matching
known domain (`0.5` when none matches), plus `0.05` for a
taxonomic-vocabulary marker and `0.03` for content longer than 1000
characters, capped at `1.0`; the result always lies in `[0, 1]`. -/
theorem calculate_reliability_spec :
    ∀ domain content : String,
      calculate_reliability domain content =
        min 1 (reliabilityBase domain +
          (if taxonomicMarkers.any (fun t => strContains content.toLower t)
            then (0.05 : ℚ) else 0) +
          (if 1000 < content.length then (0.03 : ℚ) else 0)) ∧
      reliabilityBase domain =
        ((domain_reliability.find? (fun p => strContains domain p.1)).map
          Prod.snd).getD 0.5 ∧
      0 ≤ calculate_reliability domain content ∧
      calculate_reliability domain content ≤ 1 := by
  intro domain content
  have hbase : 0 ≤ reliabilityBase domain := reliabilityBase_nonneg domain
  have heq : calculate_reliability domain content =
      min 1 (reliabilityBase domain +
        (if taxonomicMarkers.any (fun t => strContains content.toLower t)
          then (0.05 : ℚ) else 0) +
        (if 1000 < content.length then (0.03 : ℚ) else 0)) := by
    rw [calculate_reliability]
    by_cases hm : taxonomicMarkers.any (fun t => strContains content.toLower t) = true
    · by_cases hl : 1000 < content.length
      · simp [hm, hl]
      · simp [hm, hl]
    · by_cases hl : 1000 < content.length
      · simp [hm, hl]
      · simp [hm, hl]
  refine ⟨heq, ?_, ?_, ?_⟩
  · rcases hf : domain_reliability.find? (fun p => strContains domain p.1) with _ | p
    · rw [reliabilityBase, hf]
      simp
    · rw [reliabilityBase, hf]
      simp
  · rw [heq]
    have h1 : (0:ℚ) ≤
        (if taxonomicMarkers.any (fun t => strContains content.toLower t)
          then (0.05 : ℚ) else 0) := by positivity
    have h2 : (0:ℚ) ≤ (if 1000 < content.length then (0.03 : ℚ) else 0) := by
      positivity
    have : (0:ℚ) ≤ 1 := by norm_num
    exact le_min this (by linarith)
  · rw [heq]
    exact min_le_left _ _

/-! ## Spider.py: `collect_plant_sources` and the per-domain cap (C5) -/

/-- One SerpAPI search result as consumed by the collection loop:
with keys `url`, `title`, `doc_type`. -/
structure Candidate where
  url : String
  title : String
  doc_type : String

/-- One accepted RAG source record (`{"text": ..., "metadata": ...}`);
the metadata dict is abstracted to the URL it records. -/
structure RagSource where
  text : String
  url : String

/-- The `for result in search_results` loop of `collect_plant_sources`.
`netloc` abstracts `urlparse(url).netloc`; `extract url doc_type`
abstracts `self.extract_plant_info(url, doc_type)`, `none` covering both
a `None` return and a raised exception.  State: remaining candidates,
`processed_urls`, `domain_counts` (as a total function, absent keys `0`),
and the accepted `sources`. -/
def collectLoop (netloc : String → String)
    (extract : String → String → Option String) (maxSources : ℕ) :
    List Candidate → List String → (String → ℕ) → List RagSource →
      List RagSource
  | [], _, _, sources => sources
  | c :: rest, processed, counts, sources =>
    if maxSources ≤ sources.length then sources
    else if c.url ∈ processed then
      collectLoop netloc extract maxSources rest processed counts sources
    else
      let domain := netloc c.url
      let maxPerDomain : ℕ := if strContains domain (".za") then 5 else 3
      if maxPerDomain ≤ counts domain then
        collectLoop netloc extract maxSources rest processed counts sources
      else
        match extract c.url c.doc_type with
        | some text =>
          if 150 < text.trim.length then
            collectLoop netloc extract maxSources rest (c.url :: processed)
              (fun d => if d = domain then counts d + 1 else counts d)
              (sources ++ [{ text := text, url := c.url }])
          else
            collectLoop netloc extract maxSources rest (c.url :: processed)
              counts sources
        | none =>
          collectLoop netloc extract maxSources rest (c.url :: processed)
            counts sources

/-- Model of `EnhancedPlantSpider.collect_plant_sources`: empty search results give
`[]`; otherwise run the loop and sort descending by the RAG sort score
(`sortKey` abstracts `self._get_rag_sort_score` applied to the metadata). -/
def EnhancedPlantSpider.collect_plant_sources (spider : EnhancedPlantSpider)
    (netloc : String → String) (extract : String → String → Option String)
    (sortKey : RagSource → ℚ) (search_results : List Candidate) :
    List RagSource :=
  if search_results.isEmpty then []
  else
    (collectLoop netloc extract spider.max_sources search_results []
      (fun _ => 0) []).mergeSort (fun a b => decide (sortKey b ≤ sortKey a))

lemma collectLoop_countP_le (netloc : String → String)
    (extract : String → String → Option String) (maxS : ℕ) (d : String) :
    ∀ (cands : List Candidate) (processed : List String)
      (counts : String → ℕ) (sources : List RagSource),
      counts d = sources.countP (fun s => decide (netloc s.url = d)) →
      counts d ≤ (if strContains d (".za") then 5 else 3) →
      ((collectLoop netloc extract maxS cands processed counts
          sources).countP (fun s => decide (netloc s.url = d))) ≤
        (if strContains d (".za") then 5 else 3) := by
  intro cands
  induction cands with
  | nil =>
    intro processed counts sources h1 h2
    simp only [collectLoop]
    exact h1 ▸ h2
  | cons c rest ih =>
    intro processed counts sources h1 h2
    simp only [collectLoop]
    by_cases hA : maxS ≤ sources.length
    · rw [if_pos hA]
      exact h1 ▸ h2
    · rw [if_neg hA]
      by_cases hB : c.url ∈ processed
      · rw [if_pos hB]
        exact ih processed counts sources h1 h2
      · rw [if_neg hB]
        by_cases hC :
            (if strContains (netloc c.url) (".za") then (5:ℕ) else 3) ≤
              counts (netloc c.url)
        · rw [if_pos hC]
          exact ih processed counts sources h1 h2
        · rw [if_neg hC]
          split
          · next text heq =>
            by_cases hD : 150 < text.trim.length
            · rw [if_pos hD]
              apply ih
              · by_cases hdom : d = netloc c.url
                · subst hdom
                  simp [List.countP_append, ← h1]
                · have hurl : decide (netloc c.url = d) = false := by
                    simp only [decide_eq_false_iff_not]
                    exact fun h => hdom h.symm
                  simp [List.countP_append, hdom, ← h1, hurl]
              · by_cases hdom : d = netloc c.url
                · subst hdom
                  push_neg at hC
                  simp
                  omega
                · simpa [hdom] using h2
            · rw [if_neg hD]
              exact ih (c.url :: processed) counts sources h1 h2
          · next heq =>
            exact ih (c.url :: processed) counts sources h1 h2

lemma collect_plant_sources_countP_le (spider : EnhancedPlantSpider)
    (netloc : String → String) (extract : String → String → Option String)
    (sortKey : RagSource → ℚ) (search_results : List Candidate) (d : String) :
    ((spider.collect_plant_sources netloc extract sortKey
        search_results).countP (fun s => decide (netloc s.url = d))) ≤
      (if strContains d (".za") then 5 else 3) := by
  rw [EnhancedPlantSpider.collect_plant_sources]
  by_cases hnil : search_results.isEmpty
  · rw [if_pos hnil]
    simp
  · rw [if_neg hnil]
    rw [(List.mergeSort_perm _ _).countP_eq]
    exact collectLoop_countP_le netloc extract spider.max_sources d
      search_results [] (fun _ => 0) [] (by simp) (by positivity)

/-- Ten search results, all resolving to one non-regional domain. -/
def tenCandidates : List Candidate :=
  [{ url := "u0", title := "", doc_type := "html" },
   { url := "u1", title := "", doc_type := "html" },
   { url := "u2", title := "", doc_type := "html" },
   { url := "u3", title := "", doc_type := "html" },
   { url := "u4", title := "", doc_type := "html" },
   { url := "u5", title := "", doc_type := "html" },
   { url := "u6", title := "", doc_type := "html" },
   { url := "u7", title := "", doc_type := "html" },
   { url := "u8", title := "", doc_type := "html" },
   { url := "u9", title := "", doc_type := "html" }]

/-- C5: over any collection run, the number of accepted records from any
single non-regional domain never exceeds 3, and from any `.za` domain
never exceeds 5; in particular, 10 candidates all from the non-regional
domain `example.com` yield at most 3 accepted records. -/
theorem collect_plant_sources_domain_cap :
    (∀ (spider : EnhancedPlantSpider) (netloc : String → String)
       (extract : String → String → Option String)
       (sortKey : RagSource → ℚ) (search_results : List Candidate)
       (d : String),
      ((spider.collect_plant_sources netloc extract sortKey
          search_results).countP (fun s => decide (netloc s.url = d))) ≤
        (if strContains d (".za") then 5 else 3)) ∧
    (∀ (extract : String → String → Option String)
       (sortKey : RagSource → ℚ),
      ((spiderInit 20).collect_plant_sources (fun _ => "example.com")
          extract sortKey tenCandidates).length ≤ 3) := by
  refine ⟨collect_plant_sources_countP_le, fun extract sortKey => ?_⟩
  have h := collect_plant_sources_countP_le (spiderInit 20)
    (fun _ => "example.com") extract sortKey tenCandidates ("example.com")
  have hcap : strContains ("example.com") (".za") = false := by decide
  rw [hcap] at h
  simp only [if_neg (by simp : ¬(false = true))] at h
  rwa [List.countP_eq_length.mpr (fun a _ => by simp)] at h

/-! ## ArtGen.py: `EnhancedPlantArticleGenerator` (C8) -/

/-- Python `str.strip()`. -/
def pyStrip (s : String) : String :=
  ⟨((s.data.dropWhile Char.isWhitespace).reverse.dropWhile
      Char.isWhitespace).reverse⟩

/-- Python slicing `s[:n]`. -/
def pySlice (s : String) (n : ℕ) : String :=
  ⟨s.data.take n⟩

/-- Python `str.lower()`. -/
def pyLower (s : String) : String :=
  ⟨s.data.map Char.toLower⟩

/-- Python `sep.join(xs)`. -/
def pyJoin (sep : String) : List String → String
  | [] => ""
  | [x] => x
  | x :: xs => x ++ sep ++ pyJoin sep xs

/-- One entry of `research_data`, abstracted to its `content` value
(fetched with default empty string). -/
structure ResearchItem where
  content : String

/-- The fallback introduction paragraph of `generate_introduction`. -/
def introFallback (plant_name : String) : String :=
  "Welcome to our comprehensive guide on " ++ plant_name ++
  ", one of South Africa\x27s most\n            fascinating indigenous plants. This remarkable species has captured the attention of botanists,\n            gardeners, and plant enthusiasts worldwide due to its unique characteristics and cultural significance.\n            In this article, we\x27ll explore everything you need to know about this extraordinary plant, from its\n            natural habitat to practical care tips."

/-- The fallback facts block of `generate_facts_section`. -/
def factsFallback (plant_name : String) : String :=
  "<p>" ++ plant_name ++
  " is part of South Africa\x27s incredible botanical heritage,\n                which includes over 20,000 plant species. This plant has evolved unique adaptations to thrive\n                in its native environment, showcasing nature\x27s remarkable ability to create specialized solutions\n                for survival.</p>\n                <ul class=\"plant-facts\">\n                    <li>Indigenous to South Africa\x27s diverse ecosystems</li>\n                    <li>Adapted to local climate conditions and soil types</li>\n                    <li>Plays an important role in the local ecosystem</li>\n                    <li>Part of the Cape Floral Kingdom, a UNESCO World Heritage Site</li>\n                </ul>"

/-- The fallback care guide of `generate_care_section`. -/
def careFallback (plant_name : String) : String :=
  "<p>Proper care is essential for helping your " ++ plant_name ++
  " thrive.\n                Here are the key requirements:</p>\n\n                <h3>Light Requirements</h3>\n                <p>Most South African plants prefer full sun to partial shade, depending on their natural\n                habitat. Research the specific light needs of your plant to ensure optimal growth.</p>\n\n                <h3>Watering</h3>\n                <p>Water moderately during the growing season, allowing soil to dry between waterings.\n                Reduce watering in winter months to prevent root rot.</p>\n\n                <h3>Soil & Fertilization</h3>\n                <p>Use well-draining soil with good organic content. Feed during the growing season with\n                a balanced fertilizer designed for indigenous plants.</p>\n\n                <h3>Maintenance</h3>\n                <p>Prune after flowering to maintain shape and encourage new growth. Remove dead or\n                diseased material promptly.</p>"

/-- The fallback benefits block of `generate_benefits_section`. -/
def benefitsFallback (plant_name : String) : String :=
  "<p>" ++ plant_name ++
  " offers multiple benefits to both ecosystems and people:</p>\n\n                <h3>Ecological Value</h3>\n                <p>This plant plays a crucial role in its native ecosystem, providing food and habitat for\n                various species including pollinators, birds, and insects. It contributes to biodiversity\n                and helps maintain ecological balance.</p>\n\n                <h3>Traditional Knowledge</h3>\n                <p>Indigenous communities have long recognized the value of South African plants. Traditional\n                knowledge systems have identified various uses for native species, from medicinal applications\n                to practical household purposes.</p>\n\n                <h3>Horticultural Appeal</h3>\n                <p>For gardeners, this plant offers beauty, drought tolerance, and adaptability. It\x27s an\n                excellent choice for water-wise gardens and adds authentic South African character to\n                landscapes.</p>"

/-- The fallback conclusion of `generate_conclusion`. -/
def conclusionFallback (plant_name : String) : String :=
  "<p>" ++ plant_name ++
  " exemplifies the extraordinary botanical diversity\n            of South Africa. From its unique adaptations to its ecological importance and practical benefits,\n            this plant represents a valuable component of our natural heritage.</p>\n\n            <p>Whether you\x27re a gardener looking to cultivate indigenous species, a researcher studying\n            South African flora, or simply someone who appreciates the beauty of native plants, " ++
  plant_name ++
  "\n            offers much to explore and appreciate. By understanding and preserving these species, we contribute\n            to conservation efforts and maintain the rich biodiversity that makes South Africa\x27s flora world-renowned.</p>\n\n            <p>We hope this comprehensive guide has provided valuable insights into this remarkable plant.\n            Continue exploring the wonderful world of South African botanical treasures!</p>"

/-- Model of `generate_introduction`: RAG answer when a RAG system is present and
research data is non-empty (Python truthiness of both), else the fallback.
Here `rag` abstracts the `answer` field of `self.rag_system.query` as a
map from the query string to the answer. -/
def generate_introduction (rag : Option (String → String))
    (plant_name : String) (research_data : List ResearchItem) : String :=
  let intro :=
    match rag, research_data with
    | some q, _ :: _ =>
      q ("Write an engaging introduction about " ++ plant_name ++
        ", including its origin and significance")
    | _, _ => introFallback plant_name
  "<h2 class=\"section-heading\">Introduction</h2>\n<p>" ++ intro ++ "</p>"

/-- Keywords of the facts-extraction loop. -/
def factKeywords : List String :=
  ["native", "species", "family", "discovered", "named"]

/-- The facts-extraction loop of `generate_facts_section`: stripped
content longer than 100 characters containing a keyword, truncated at
250, at most 3 items. -/
def factItemsGo : List ResearchItem → List String → List String
  | [], acc => acc
  | item :: rest, acc =>
    let content := pyStrip item.content
    if 100 < content.length ∧
        factKeywords.any (fun kw => strContains (pyLower content) kw) then
      let acc := acc ++
        [if 250 < content.length then pySlice content 250 ++ "..." else content]
      if 3 ≤ acc.length then acc else factItemsGo rest acc
    else factItemsGo rest acc

/-- Model of `generate_facts_section`. -/
def generate_facts_section (rag : Option (String → String))
    (plant_name : String) (research_data : List ResearchItem) : String :=
  let header := "<h2 class=\"section-heading\">Fascinating Facts</h2>"
  match rag, research_data with
  | some q, _ :: _ =>
    pyJoin ("\n") [header,
      "<p>" ++ q ("What are the most interesting botanical facts about " ++
        plant_name ++ "?") ++ "</p>"]
  | _, _ =>
    let items := factItemsGo research_data []
    if items.isEmpty then
      pyJoin ("\n") [header, factsFallback plant_name]
    else
      pyJoin ("\n") (header :: "<ul class=\"plant-facts\">" ::
        (items.map (fun f => "<li>" ++ f ++ "</li>") ++ ["</ul>"]))

/-- Keywords of the care-extraction loop. -/
def careKeywords : List String :=
  ["water", "soil", "sun", "light", "grow", "plant", "care", "propagat"]

/-- The care-extraction loop of `generate_care_section`: stripped content
containing a keyword (no length floor), truncated at 300, at most 2. -/
def careItemsGo : List ResearchItem → List String → List String
  | [], acc => acc
  | item :: rest, acc =>
    let content := pyStrip item.content
    if careKeywords.any (fun kw => strContains (pyLower content) kw) then
      let acc := acc ++
        [if 300 < content.length then pySlice content 300 ++ "..." else content]
      if 2 ≤ acc.length then acc else careItemsGo rest acc
    else careItemsGo rest acc

/-- Model of `generate_care_section`. -/
def generate_care_section (rag : Option (String → String))
    (plant_name : String) (research_data : List ResearchItem) : String :=
  let header := "<h2 class=\"section-heading\">Care & Cultivation</h2>"
  match rag, research_data with
  | some q, _ :: _ =>
    pyJoin ("\n") [header,
      "<p>" ++ q ("How do you care for and cultivate " ++ plant_name ++
        "? Include watering, light, soil, and propagation.") ++ "</p>"]
  | _, _ =>
    let infos := careItemsGo research_data []
    if infos.isEmpty then
      pyJoin ("\n") [header, careFallback plant_name]
    else
      pyJoin ("\n") (header :: infos.map (fun i => "<p>" ++ i ++ "</p>"))

/-- Keywords of the benefits-extraction loop. -/
def benefitKeywords : List String :=
  ["medicin", "tradition", "use", "benefit", "treat", "heal", "cultur"]

/-- The benefits-extraction loop of `generate_benefits_section`. -/
def benefitItemsGo : List ResearchItem → List String → List String
  | [], acc => acc
  | item :: rest, acc =>
    let content := pyStrip item.content
    if benefitKeywords.any (fun kw => strContains (pyLower content) kw) then
      let acc := acc ++
        [if 300 < content.length then pySlice content 300 ++ "..." else content]
      if 2 ≤ acc.length then acc else benefitItemsGo rest acc
    else benefitItemsGo rest acc

/-- Model of `generate_benefits_section`. -/
def generate_benefits_section (rag : Option (String → String))
    (plant_name : String) (research_data : List ResearchItem) : String :=
  let header := "<h2 class=\"section-heading\">Benefits & Traditional Uses</h2>"
  match rag, research_data with
  | some q, _ :: _ =>
    pyJoin ("\n") [header,
      "<p>" ++ q ("What are the medicinal, ecological, and cultural benefits of " ++
        plant_name ++ "?") ++ "</p>"]
  | _, _ =>
    let infos := benefitItemsGo research_data []
    if infos.isEmpty then
      pyJoin ("\n") [header, benefitsFallback plant_name]
    else
      pyJoin ("\n") (header :: infos.map (fun i => "<p>" ++ i ++ "</p>"))

/-- Model of `generate_conclusion`. -/
def generate_conclusion (rag : Option (String → String))
    (plant_name : String) (research_data : List ResearchItem) : String :=
  let header := "<h2 class=\"section-heading\">Conclusion</h2>"
  match rag, research_data with
  | some q, _ :: _ =>
    pyJoin ("\n") [header,
      "<p>" ++ q ("Summarize the key points about " ++ plant_name ++
        " including its importance, care needs, and value") ++ "</p>"]
  | _, _ =>
    pyJoin ("\n") [header, conclusionFallback plant_name]

/-- Model of `generate_full_article`: Jekyll front matter (optional), image
placeholder, and the five sections joined by blank lines.  `dateStr`
abstracts the formatted `datetime.now()` timestamp and `bgNum` the
`f"{random.randint(1, 6):02d}"` background number. -/
def generate_full_article (rag : Option (String → String))
    (plant_name : String) (research_data : List ResearchItem)
    (dateStr bgNum : String) (include_front_matter : Bool) : String :=
  let front_matter :=
    if include_front_matter then
      "---\nlayout: post\ntitle: \"The Complete Guide to " ++ plant_name ++
      "\"\nsubtitle: \"Discover the facts, care tips, and benefits of this remarkable South African plant\"\ndate: " ++
      dateStr ++ "\nbackground: \x27/img/posts/" ++ bgNum ++
      ".jpg\x27\ncategories: [South African Plants, Botany, Plant Care]\ntags: [" ++
      pyLower plant_name ++
      ", indigenous-plants, south-african-flora, plant-guide]\n---\n\n"
    else ""
  let sections :=
    [generate_introduction rag plant_name research_data,
     generate_facts_section rag plant_name research_data,
     generate_care_section rag plant_name research_data,
     generate_benefits_section rag plant_name research_data,
     generate_conclusion rag plant_name research_data]
  let image_section :=
    "<img class=\"img-fluid\" src=\"/img/plants/" ++
    ((pyLower plant_name).replace (" ") ("-")) ++
    ".jpg\"\n             alt=\"" ++ plant_name ++
    "\" onerror=\"this.src=\x27/img/posts/default-plant.jpg\x27\">\n<span class=\"caption text-muted\">" ++
    plant_name ++ " in its natural habitat</span>\n\n"
  front_matter ++ image_section ++ pyJoin ("\n\n") sections

lemma isInfix_data_mid (a p b : String) : p.data <:+: (a ++ p ++ b).data := by
  refine ⟨a.data, b.data, ?_⟩
  simp [String.data_append]

lemma isInfix_data_suffix (a p : String) : p.data <:+: (a ++ p).data := by
  rw [String.data_append]
  exact (List.suffix_append a.data p.data).isInfix

lemma isInfix_data_append_left (p a b : String) (h : p.data <:+: a.data) :
    p.data <:+: (a ++ b).data := by
  rw [String.data_append]
  exact h.trans (List.prefix_append a.data b.data).isInfix

lemma isInfix_data_append_right (p a b : String) (h : p.data <:+: b.data) :
    p.data <:+: (a ++ b).data := by
  rw [String.data_append]
  exact h.trans (List.suffix_append a.data b.data).isInfix

/-- C8 counterexample: with the generation model unavailable (`rag = none`)
but a non-empty record list, the care section is filled from the record
content rather than the template, and its text does not contain the
subject name — so "model unavailable" alone does not force the templates. -/
theorem generate_care_section_counterexample :
    ¬ ("Protea".data <:+:
        (generate_care_section none ("Protea") [{ content := "water" }]).data) := by
  decide

set_option maxRecDepth 4000 in
/-- C8 (amended): whenever the supplied record list is empty — whether or
not a RAG system is present — every one of the five sections equals its
deterministic template rendering, each contains the subject name, and the
assembled article is a non-empty document. -/
theorem generate_full_article_empty_templates :
    ∀ (rag : Option (String → String)) (plant_name dateStr bgNum : String)
      (fm : Bool),
      generate_introduction rag plant_name [] =
        "<h2 class=\"section-heading\">Introduction</h2>\n<p>" ++
          introFallback plant_name ++ "</p>" ∧
      plant_name.data <:+: (generate_introduction rag plant_name []).data ∧
      generate_facts_section rag plant_name [] =
        "<h2 class=\"section-heading\">Fascinating Facts</h2>" ++ "\n" ++
          factsFallback plant_name ∧
      plant_name.data <:+: (generate_facts_section rag plant_name []).data ∧
      generate_care_section rag plant_name [] =
        "<h2 class=\"section-heading\">Care & Cultivation</h2>" ++ "\n" ++
          careFallback plant_name ∧
      plant_name.data <:+: (generate_care_section rag plant_name []).data ∧
      generate_benefits_section rag plant_name [] =
        "<h2 class=\"section-heading\">Benefits & Traditional Uses</h2>" ++ "\n" ++
          benefitsFallback plant_name ∧
      plant_name.data <:+: (generate_benefits_section rag plant_name []).data ∧
      generate_conclusion rag plant_name [] =
        "<h2 class=\"section-heading\">Conclusion</h2>" ++ "\n" ++
          conclusionFallback plant_name ∧
      plant_name.data <:+: (generate_conclusion rag plant_name []).data ∧
      0 < (generate_full_article rag plant_name [] dateStr bgNum fm).data.length := by
  intro rag p dateStr bgNum fm
  have hi : generate_introduction rag p [] =
      "<h2 class=\"section-heading\">Introduction</h2>\n<p>" ++
        introFallback p ++ "</p>" := by
    cases rag <;> rfl
  have hf : generate_facts_section rag p [] =
      "<h2 class=\"section-heading\">Fascinating Facts</h2>" ++ "\n" ++
        factsFallback p := by
    cases rag <;> rfl
  have hc : generate_care_section rag p [] =
      "<h2 class=\"section-heading\">Care & Cultivation</h2>" ++ "\n" ++
        careFallback p := by
    cases rag <;> rfl
  have hb : generate_benefits_section rag p [] =
      "<h2 class=\"section-heading\">Benefits & Traditional Uses</h2>" ++ "\n" ++
        benefitsFallback p := by
    cases rag <;> rfl
  have hcl : generate_conclusion rag p [] =
      "<h2 class=\"section-heading\">Conclusion</h2>" ++ "\n" ++
        conclusionFallback p := by
    cases rag <;> rfl
  refine ⟨hi, ?_, hf, ?_, hc, ?_, hb, ?_, hcl, ?_, ?_⟩
  · rw [hi, introFallback]
    exact isInfix_data_append_left p _ _ (isInfix_data_append_right p _ _
      (isInfix_data_mid _ p _))
  · rw [hf, factsFallback]
    exact isInfix_data_append_right p _ _ (isInfix_data_mid _ p _)
  · rw [hc, careFallback]
    exact isInfix_data_append_right p _ _ (isInfix_data_mid _ p _)
  · rw [hb, benefitsFallback]
    exact isInfix_data_append_right p _ _ (isInfix_data_mid _ p _)
  · rw [hcl, conclusionFallback]
    exact isInfix_data_append_right p _ _ (isInfix_data_append_left p _ _
      (isInfix_data_append_left p _ _ (isInfix_data_append_left p _ _
        (isInfix_data_suffix _ p))))
  · simp [generate_full_article, String.data_append, List.length_append]
